import Mathlib

/-!
Verification of the `youtubeaio` client library (joostlek/python-youtube).

This file gives a shallow embedding of the request pipeline of
`src/youtubeaio`: the status-to-error mapping (`_check_request_return`),
the paginated generator (`_build_generator`), the resource entry point
(`get_videos`), credential storage (`set_user_authentication`), the OAuth
token refresh (`refresh_access_token`), the schema decoding of
`YouTubeVideo` (pydantic models in `models.py`, with the lazy `snippet`
accessor), and the query-string builder (`build_url`).

Modelling conventions:
* Python exceptions become the inductive `PyError`; raising becomes an
  `Except`/`Option PyError` result.
* The network is a pure function `fetch : Option String → Nat × HttpResponse ρ`
  giving, for each requested page token, the wall-clock duration of the
  HTTP call and the response; `async_timeout.timeout(t)` firing is modelled
  as the duration strictly exceeding `t`.
* The async generator is run to completion with a fuel argument; `none`
  means the fuel ran out (the real loop is unbounded).
* Datetimes stay raw strings; `urllib.parse.quote` is an abstract
  parameter of `build_url` (the theorems hold for every quoting function).
-/

/-- Python exceptions raised by the library, from `src/youtubeaio/types.py`
(plus built-in `ValueError`/`KeyError` and the aiohttp transport/body
exceptions that the source lets propagate). `youTubeAPIError` carries the
optional message of `YouTubeAPIError(msg)` (`none` when raised bare). -/
inductive PyError where
  | valueError (msg : String)
  | keyError (key : String)
  | validationError (msg : String)
  | youTubeAPIError (msg : Option String)
  | youTubeAuthorizationError (msg : Option String)
  | invalidRefreshTokenError (msg : String)
  | invalidTokenError (msg : String)
  | unauthorizedError (msg : String)
  | missingScopeError (msg : String)
  | youTubeBackendError (msg : String)
  | partMissingError
  | missingAppSecretError
  | deprecatedError
  | youTubeResourceNotFoundError
  | forbiddenError
  | aiohttpClientError
  | jsonDecodeError
  deriving DecidableEq, Repr

/-- Membership test for the `YouTubeAuthorizationError` branch of the
exception hierarchy in `types.py` (its subclasses are `UnauthorizedError`
and `MissingScopeError`; note `InvalidRefreshTokenError` subclasses
`YouTubeAPIError` directly). -/
def PyError.isAuthorizationError : PyError → Bool
  | .youTubeAuthorizationError _ => true
  | .unauthorizedError _ => true
  | .missingScopeError _ => true
  | _ => false

/-- One HTTP response as seen by `_build_generator`: the status code, the
`message` field of the JSON body (read by `_check_request_return` on 400),
whether `response.content_type == "application/json"`, and the decoded
page body (`items` array, absent treated as `[]`, and optional
`nextPageToken`). `ρ` is the type of one raw item of the `items` array. -/
structure HttpResponse (ρ : Type) where
  status : Nat
  bodyMessage : Option String
  contentTypeJson : Bool
  items : List ρ
  nextPageToken : Option String
  deriving DecidableEq, Repr

/-- Message built by `_check_request_return` for a 400 response:
`"Bad Request" + ("" if msg is None else f" - {msg}")`. -/
def bad_request_message (m : Option String) : String :=
  "Bad Request" ++ (match m with | none => "" | some s => " - " ++ s)

/-- Embedding of `YouTube._check_request_return` (youtube.py lines 68-81):
the status checks in source order (500, 400, 404, any other 4xx), first
match raising; every unmatched status (2xx in particular) returns the
response. `.ok ()` is the fall-through `return response`. -/
def check_request_return (status : Nat) (bodyMessage : Option String) :
    Except PyError Unit :=
  if status = 500 then
    .error (.youTubeBackendError "Internal Server Error")
  else if status = 400 then
    .error (.youTubeAPIError (some (bad_request_message bodyMessage)))
  else if status = 404 then
    .error .youTubeResourceNotFoundError
  else if 400 ≤ status ∧ status < 500 then
    .error (.youTubeAPIError none)
  else
    .ok ()

/-- Conversion of the `items` array: `yield return_type(**entry)` applied
entry by entry. An entry whose conversion raises stops the generator
there; the entries before it were already yielded, so the pair returned is
(successfully converted prefix, first conversion error if any). -/
def convertItems {ρ α : Type} (conv : ρ → Except PyError α) :
    List ρ → List α × Option PyError
  | [] => ([], none)
  | x :: xs =>
    match conv x with
    | .error e => ([], some e)
    | .ok a =>
      let rest := convertItems conv xs
      (a :: rest.1, rest.2)

deriving instance DecidableEq for Except

/-- Observable outcome of running the generator to completion: the items
yielded to the consumer in order, the page tokens of the HTTP requests
issued in order (`none` is the first page, `pageToken` omitted), and
whether the generator ended cleanly (`.ok ()`, i.e. `StopAsyncIteration`)
or raised. -/
structure GenResult (α : Type) where
  yielded : List α
  requests : List (Option String)
  outcome : Except PyError Unit
  deriving DecidableEq, Repr

/-- Default of the `session_timeout` argument of `YouTube.__init__`
(youtube.py line 48). -/
def session_timeout_default : Nat := 10

/-- The timeout error raised by `_build_generator` when
`asyncio.TimeoutError` escapes `async_timeout.timeout(...)`:
`YouTubeAPIError("Timeout occurred")`. -/
def timeoutError : PyError := .youTubeAPIError (some "Timeout occurred")

/-- Embedding of `YouTube._build_generator` (youtube.py lines 95-131), run
to completion with `fuel` loop iterations allowed (`none` = fuel
exhausted). Arguments `after`/`first` are the loop variables `_after` and
`_first`; each iteration with `_first or _after is not None`:
fetches the page for cursor `after` under a fresh `session_timeout`
deadline (a call whose duration strictly exceeds it raises
`YouTubeAPIError("Timeout occurred")`), applies `_check_request_return`,
checks the content type, yields the converted items, then continues with
the body's `nextPageToken`. -/
def buildGenerator {ρ α : Type} (sessionTimeout : Nat)
    (fetch : Option String → Nat × HttpResponse ρ)
    (conv : ρ → Except PyError α) :
    Nat → Option String → Bool → Option (GenResult α)
  | 0, after, first =>
    if first || after.isSome then none else some ⟨[], [], .ok ()⟩
  | fuel + 1, after, first =>
    if first || after.isSome then
      if sessionTimeout < (fetch after).1 then
        some ⟨[], [after], .error timeoutError⟩
      else
        match check_request_return (fetch after).2.status
            (fetch after).2.bodyMessage with
        | .error e => some ⟨[], [after], .error e⟩
        | .ok () =>
          if (fetch after).2.contentTypeJson then
            let converted := convertItems conv (fetch after).2.items
            match converted.2 with
            | some e => some ⟨converted.1, [after], .error e⟩
            | none =>
              match buildGenerator sessionTimeout fetch conv fuel
                  (fetch after).2.nextPageToken false with
              | none => none
              | some r =>
                some ⟨converted.1 ++ r.yielded, after :: r.requests,
                  r.outcome⟩
          else
            some ⟨[], [after], .error (.youTubeAPIError
              (some "Unexpected response type"))⟩
    else
      some ⟨[], [], .ok ()⟩

/-! Schema decoding: the pydantic models of `src/youtubeaio/models.py`.
Required fields (`Field(...)`) fail validation when absent; optional
fields (`Field(None)` / `Field([])`) default. Datetimes stay raw strings.
All validation failures are pydantic `ValidationError`s; the message texts
here are schematic, only which inputs fail matters. -/

/-- Values of the `liveBroadcastContent` enum (`const.py`). -/
inductive LiveBroadcastContent where
  | none
  | live
  | upcoming
  deriving DecidableEq, Repr

/-- Model `YouTubeThumbnail` (models.py): all three fields required. -/
structure YouTubeThumbnail where
  url : String
  width : Int
  height : Int
  deriving DecidableEq, Repr

/-- Model `YouTubeVideoThumbnails` (models.py): `default` required, the
four larger sizes optional. -/
structure YouTubeVideoThumbnails where
  default : YouTubeThumbnail
  medium : Option YouTubeThumbnail
  high : Option YouTubeThumbnail
  standard : Option YouTubeThumbnail
  maxres : Option YouTubeThumbnail
  deriving DecidableEq, Repr

/-- Model `YouTubeVideoSnippet` (models.py), field names as in Python,
aliases resolved (`publishedAt` -> `published_at`, ...). -/
structure YouTubeVideoSnippet where
  published_at : String
  channel_id : String
  title : String
  description : String
  thumbnails : YouTubeVideoThumbnails
  channel_title : String
  tags : List String
  live_broadcast_content : LiveBroadcastContent
  default_language : Option String
  default_audio_language : Option String
  deriving DecidableEq, Repr

/-- Model `YouTubeVideo` (models.py): required `id` alias `video_id`,
optional `snippet` alias `nullable_snippet`. -/
structure YouTubeVideo where
  video_id : String
  nullable_snippet : Option YouTubeVideoSnippet
  deriving DecidableEq, Repr

/-- The `snippet` property of `YouTubeVideo` (models.py lines 75-80):
raises `PartMissingError` when `nullable_snippet` is `None`, otherwise
returns it. -/
def YouTubeVideo.snippet (v : YouTubeVideo) :
    Except PyError YouTubeVideoSnippet :=
  match v.nullable_snippet with
  | Option.none => .error .partMissingError
  | Option.some s => .ok s

/-- Raw JSON object for a thumbnail as handed to pydantic: every field
possibly absent. -/
structure RawThumbnail where
  url : Option String
  width : Option Int
  height : Option Int
  deriving DecidableEq, Repr

/-- Raw JSON object for the `thumbnails` part. -/
structure RawVideoThumbnails where
  default : Option RawThumbnail
  medium : Option RawThumbnail
  high : Option RawThumbnail
  standard : Option RawThumbnail
  maxres : Option RawThumbnail
  deriving DecidableEq, Repr

/-- Raw JSON object for the `snippet` part (keys as sent by the API). -/
structure RawSnippet where
  publishedAt : Option String
  channelId : Option String
  title : Option String
  description : Option String
  thumbnails : Option RawVideoThumbnails
  channelTitle : Option String
  tags : Option (List String)
  liveBroadcastContent : Option String
  defaultLanguage : Option String
  defaultAudioLanguage : Option String
  deriving DecidableEq, Repr

/-- Raw JSON object for one entry of the `items` array of a videos
response. -/
structure RawVideo where
  id : Option String
  snippet : Option RawSnippet
  deriving DecidableEq, Repr

/-- Validation of one thumbnail: all fields required. -/
def decodeThumbnail (r : RawThumbnail) : Except String YouTubeThumbnail :=
  match r.url, r.width, r.height with
  | some u, some w, some h => .ok ⟨u, w, h⟩
  | _, _, _ => .error "thumbnail: field required"

/-- Validation of an optional thumbnail slot: absent is fine, a present
value must validate. -/
def decodeOptThumbnail : Option RawThumbnail →
    Except String (Option YouTubeThumbnail)
  | Option.none => .ok Option.none
  | Option.some r => (decodeThumbnail r).map Option.some

/-- Validation of the `thumbnails` object: `default` required. -/
def decodeVideoThumbnails (r : RawVideoThumbnails) :
    Except String YouTubeVideoThumbnails :=
  match r.default with
  | Option.none => .error "thumbnails.default: field required"
  | Option.some d => do
    let dv ← decodeThumbnail d
    let m ← decodeOptThumbnail r.medium
    let h ← decodeOptThumbnail r.high
    let s ← decodeOptThumbnail r.standard
    let mx ← decodeOptThumbnail r.maxres
    .ok ⟨dv, m, h, s, mx⟩

/-- Parsing of the `liveBroadcastContent` string enum. -/
def parseLiveBroadcastContent (s : String) :
    Except String LiveBroadcastContent :=
  if s = "none" then .ok .none
  else if s = "live" then .ok .live
  else if s = "upcoming" then .ok .upcoming
  else .error "liveBroadcastContent: invalid value"

/-- Validation of the `snippet` part: the seven `Field(...)` fields are
required, `tags` defaults to `[]`, the two language fields are optional. -/
def decodeVideoSnippet (r : RawSnippet) :
    Except String YouTubeVideoSnippet :=
  match r.publishedAt, r.channelId, r.title, r.description, r.thumbnails,
      r.channelTitle, r.liveBroadcastContent with
  | some pa, some ci, some t, some d, some th, some ct, some lbc => do
    let thv ← decodeVideoThumbnails th
    let lbcv ← parseLiveBroadcastContent lbc
    .ok ⟨pa, ci, t, d, thv, ct, r.tags.getD [], lbcv, r.defaultLanguage,
      r.defaultAudioLanguage⟩
  | _, _, _, _, _, _, _ => .error "snippet: field required"

/-- Validation of one video entry, `YouTubeVideo(**entry)`: `id` is
required, `snippet` optional; decoding succeeds with
`nullable_snippet = none` when the part is absent. -/
def decodeVideo (r : RawVideo) : Except String YouTubeVideo :=
  match r.id with
  | Option.none => .error "id: field required"
  | Option.some i =>
    match r.snippet with
    | Option.none => .ok ⟨i, Option.none⟩
    | Option.some rs => (decodeVideoSnippet rs).map fun s => ⟨i, some s⟩

/-- The conversion used by `get_videos`: a pydantic failure surfaces as a
`ValidationError` exception. -/
def decodeVideoE (r : RawVideo) : Except PyError YouTubeVideo :=
  match decodeVideo r with
  | .error m => .error (.validationError m)
  | .ok v => .ok v

/-- Embedding of `YouTube.get_videos` (youtube.py lines 171-190): an empty
id list raises `ValueError("at least one video id has to be set")` before
the generator loop runs (zero requests recorded); otherwise the paginated
generator runs with no initial page token, converting entries with the
`YouTubeVideo` model. -/
def get_videos (sessionTimeout : Nat)
    (fetch : Option String → Nat × HttpResponse RawVideo) (fuel : Nat)
    (videoIds : List String) : Option (GenResult YouTubeVideo) :=
  if videoIds.isEmpty then
    some ⟨[], [], .error (.valueError "at least one video id has to be set")⟩
  else
    buildGenerator sessionTimeout fetch decodeVideoE fuel Option.none true

/-! Credential storage: `YouTube.set_user_authentication`
(youtube.py lines 133-162). -/

/-- The `AuthScope` enum of `types.py`. -/
inductive AuthScope where
  | manage
  | manageMemberships
  | forceSsl
  | readOnly
  | upload
  | partner
  | partnerAudit
  deriving DecidableEq, Repr

/-- The client fields touched by `set_user_authentication`: the
`auto_refresh_auth` policy fixed at construction and the four stored
credential fields. -/
structure YouTubeState where
  autoRefreshAuth : Bool
  userAuthToken : Option String
  userAuthRefreshToken : Option String
  userAuthScopes : List AuthScope
  hasUserAuth : Bool
  deriving DecidableEq, Repr

/-- Embedding of `YouTube.set_user_authentication`: first the
refresh-token check (`ValueError` when `refresh_token is None` and
`auto_refresh_auth`), then the empty-scopes check (`MissingScopeError`),
and only then the four assignments. Returns the raised exception (if any)
together with the client state after the call. -/
def set_user_authentication (st : YouTubeState) (token : String)
    (scopes : List AuthScope) (refreshToken : Option String) :
    Option PyError × YouTubeState :=
  if refreshToken = Option.none ∧ st.autoRefreshAuth then
    (some (.valueError
      "refresh_token has to be provided when auto_refresh_auth is True"), st)
  else if scopes.isEmpty then
    (some (.missingScopeError "scope was not provided"), st)
  else
    (Option.none,
      { st with
        userAuthToken := some token
        userAuthRefreshToken := refreshToken
        userAuthScopes := scopes
        hasUserAuth := true })

/-! OAuth token refresh: `refresh_access_token` (oauth.py lines 10-49). -/

/-- The JSON body of the token endpoint response: `data["access_token"]`
(a missing key raises `KeyError`) and `data.get("error", "")`. -/
structure TokenBody where
  accessToken : Option String
  error : Option String
  deriving DecidableEq, Repr

/-- Status/body classification performed by `refresh_access_token` after
the POST succeeded and its body parsed: 400 raises
`InvalidRefreshTokenError(data.get("error",""))`, 401 raises
`UnauthorizedError(data.get("error",""))`, every other status returns
`(data["access_token"], refresh_token)`, raising `KeyError` when the
body has no `access_token` field. -/
def refresh_access_token (refreshToken : String) (status : Nat)
    (body : TokenBody) : Except PyError (String × String) :=
  if status = 400 then
    .error (.invalidRefreshTokenError (body.error.getD ""))
  else if status = 401 then
    .error (.unauthorizedError (body.error.getD ""))
  else
    match body.accessToken with
    | Option.none => .error (.keyError "access_token")
    | Option.some a => .ok (a, refreshToken)

/-- Outcome of `ses.post(url, data=param)` followed by
`await result.json()`: the POST itself may raise (transport failure), and
the body may fail to parse as JSON. -/
inductive PostOutcome where
  | transportFailure
  | response (status : Nat) (body : Except String TokenBody)
  deriving DecidableEq, Repr

/-- Embedding of `refresh_access_token` with its session lifecycle
(oauth.py lines 40-49): `ses` is the caller session or a fresh one;
`await ses.close()` runs only when the caller supplied no session AND
both the POST and the JSON parse succeeded (the close sits between the
body read and the status checks, with no try/finally). The Bool returned
is whether `ses.close()` ran. -/
def refresh_access_token_with_session (sessionSupplied : Bool)
    (refreshToken : String) (post : PostOutcome) :
    Except PyError (String × String) × Bool :=
  match post with
  | .transportFailure => (.error .aiohttpClientError, false)
  | .response _ (.error _) => (.error .jsonDecodeError, false)
  | .response status (.ok body) =>
    (refresh_access_token refreshToken status body, !sessionSupplied)

/-! Query-string building: `build_url` (helper.py lines 41-85). -/

/-- A scalar query parameter value: a plain string, or an Enum member
carrying both `str(member)` and `str(member.value)` (which one is used
depends on the `enum_value` flag of `get_value`). -/
inductive ScalarValue where
  | str (s : String)
  | enum (reprStr : String) (valueStr : String)
  deriving DecidableEq, Repr

/-- Embedding of the inner `get_value` of `build_url`: with
`enum_value` set, an Enum member renders as `str(member.value)`,
otherwise as `str(member)`; a plain string renders as itself either
way. -/
def get_value (enumValue : Bool) : ScalarValue → String
  | .str s => s
  | .enum r v => if enumValue then v else r

/-- A query parameter value as passed to `build_url`: `None`, a scalar,
or a Python list (of scalars). -/
inductive ParamValue where
  | null
  | scalar (v : ScalarValue)
  | list (xs : List ScalarValue)
  deriving DecidableEq, Repr

/-- Rendering `str(xs)` of a Python list for the non-split branch:
`['a', 'b']` for strings, `<Enum.X: 'v'>` for enum members (schematic;
only the split-list branch matters to the properties proved here). -/
def pyListRepr (xs : List ScalarValue) : String :=
  "[" ++ ", ".intercalate (xs.map fun v =>
    match v with
    | .str s => "'" ++ s ++ "'"
    | .enum r val => "<" ++ r ++ ": '" ++ val ++ "'>") ++ "]"

/-- Embedding of the inner `add_param` of `build_url`: appends `&` when
the accumulated result is nonempty, then the key, then `=value` unless
the value is `None`. `quoteFn` stands for `urllib.parse.quote`. -/
def add_param (quoteFn : String → String) (enumValue : Bool)
    (res key : String) (value : Option ScalarValue) : String :=
  let res1 := if res.length > 0 then res ++ "&" else res
  let res2 := res1 ++ key
  match value with
  | Option.none => res2
  | Option.some v => res2 ++ ("=" ++ quoteFn (get_value enumValue v))

/-- One iteration of the `for key, value in params.items()` loop of
`build_url`: skip a `None` value under `remove_none`, expand a list under
`split_lists` element by element, otherwise add the single parameter
(a whole list rendered with `str`). -/
def build_url_step (quoteFn : String → String)
    (removeNone splitLists enumValue : Bool) (result : String)
    (kv : String × ParamValue) : String :=
  match kv.2 with
  | .null =>
    if removeNone then result
    else add_param quoteFn enumValue result kv.1 Option.none
  | .scalar v => add_param quoteFn enumValue result kv.1 (Option.some v)
  | .list xs =>
    if splitLists then
      xs.foldl (fun r v => add_param quoteFn enumValue r kv.1
        (Option.some v)) result
    else
      add_param quoteFn enumValue result kv.1
        (Option.some (.str (pyListRepr xs)))

/-- Embedding of `build_url` (helper.py lines 41-85): fold the parameter
handling over `params` starting from the empty string, then append
`?result` to the base URL when the result is nonempty. -/
def build_url (quoteFn : String → String) (url : String)
    (params : List (String × ParamValue))
    (removeNone splitLists enumValue : Bool) : String :=
  let result := params.foldl
    (build_url_step quoteFn removeNone splitLists enumValue) ""
  url ++ (if result.length > 0 then "?" ++ result else "")

/-- Specification-side view of one parameter: the list of `key[=value]`
units it contributes to the query string, in order. A `None` value under
`remove_none` contributes nothing; without `remove_none` it contributes
the bare key; a list under `split_lists` contributes one unit per element
in list order. -/
def paramUnits (removeNone splitLists : Bool) :
    String × ParamValue → List (String × Option ScalarValue)
  | (k, .null) => if removeNone then [] else [(k, Option.none)]
  | (k, .scalar v) => [(k, Option.some v)]
  | (k, .list xs) =>
    if splitLists then xs.map fun v => (k, Option.some v)
    else [(k, Option.some (.str (pyListRepr xs)))]

/-- Rendering of one unit: the bare key, or `key=quote(value)`. -/
def unitFragment (quoteFn : String → String) (enumValue : Bool) :
    String × Option ScalarValue → String
  | (k, Option.none) => k
  | (k, Option.some v) => k ++ ("=" ++ quoteFn (get_value enumValue v))

/-- Join of the unit fragments with `&`. -/
def joinAmp : List String → String
  | [] => ""
  | [f] => f
  | f :: g :: rest => f ++ "&" ++ joinAmp (g :: rest)

/-! Concrete fixtures used to evaluate the definitions at specific
inputs. -/

/-- Identity conversion for pages of plain numbers (a `return_type` whose
construction never raises). -/
def okConvNat : Nat → Except PyError Nat := fun n => .ok n

/-- Pages of the two-page scenario: the first page holds items 10 and 20
and cursor "X"; the page for cursor "X" holds item 30 and no cursor. -/
def fetchC1pages : Option String → HttpResponse Nat := fun tok =>
  match tok with
  | Option.some "X" => ⟨200, Option.none, true, [30], Option.none⟩
  | _ => ⟨200, Option.none, true, [10, 20], Option.some "X"⟩

/-- Two-page response sequence, every call instantaneous. -/
def fetchC1 : Option String → Nat × HttpResponse Nat := fun tok =>
  (0, fetchC1pages tok)

/-- Pages where the first page has an empty item array but a cursor. -/
def fetchC2pages : Option String → HttpResponse Nat := fun tok =>
  match tok with
  | Option.some "X" => ⟨200, Option.none, true, [5], Option.none⟩
  | _ => ⟨200, Option.none, true, [], Option.some "X"⟩

/-- Response sequence whose first page is empty but carries a cursor. -/
def fetchC2 : Option String → Nat × HttpResponse Nat := fun tok =>
  (0, fetchC2pages tok)

/-- Three pages, one item each, chained by cursors "A" and "B". -/
def fetchC9pages : Option String → HttpResponse Nat := fun tok =>
  match tok with
  | Option.some "A" => ⟨200, Option.none, true, [2], Option.some "B"⟩
  | Option.some "B" => ⟨200, Option.none, true, [3], Option.none⟩
  | _ => ⟨200, Option.none, true, [1], Option.some "A"⟩

/-- Three-page sequence in which every call takes 9 time-units, so the
whole iteration takes 27 while each call stays inside the default
deadline of 10. -/
def fetchC9 : Option String → Nat × HttpResponse Nat := fun tok =>
  (9, fetchC9pages tok)

/-- A fetch whose call takes 11 time-units, exceeding the deadline 10. -/
def fetchC9slow : Option String → Nat × HttpResponse Nat := fun _ =>
  (11, ⟨200, Option.none, true, [7], Option.none⟩)

/-- A trivial raw-video endpoint: one empty page. -/
def fetchC4 : Option String → Nat × HttpResponse RawVideo := fun _ =>
  (0, ⟨200, Option.none, true, [], Option.none⟩)

/-- A complete raw thumbnail. -/
def rawThumbC5 : RawThumbnail :=
  ⟨some "https://i.ytimg.com/vi/x/default.jpg", some 120, some 90⟩

/-- A complete raw snippet (every required field present, `tags` and the
language fields absent). -/
def rsC5 : RawSnippet :=
  ⟨some "2012-10-01T15:27:35Z", some "UCAuUUnT6oDeKwE6v1NGQxug",
    some "Title", some "Description",
    some ⟨some rawThumbC5, Option.none, Option.none, Option.none,
      Option.none⟩,
    some "Channel", Option.none, some "none", Option.none, Option.none⟩

/-- The decoded form of `rsC5`. -/
def sC5 : YouTubeVideoSnippet :=
  ⟨"2012-10-01T15:27:35Z", "UCAuUUnT6oDeKwE6v1NGQxug", "Title",
    "Description",
    ⟨⟨"https://i.ytimg.com/vi/x/default.jpg", 120, 90⟩, Option.none,
      Option.none, Option.none, Option.none⟩,
    "Channel", [], LiveBroadcastContent.none, Option.none, Option.none⟩

/-- A raw video whose optional `snippet` part is absent. -/
def rvC5a : RawVideo := ⟨some "vid", Option.none⟩

/-- A raw video whose `snippet` part is present and valid. -/
def rvC5b : RawVideo := ⟨some "vid", some rsC5⟩

/-- A client state with the auto-refresh policy on and nothing stored. -/
def stC6 : YouTubeState := ⟨true, Option.none, Option.none, [], false⟩

/-- A client state with the auto-refresh policy off and nothing stored. -/
def stC6b : YouTubeState := ⟨false, Option.none, Option.none, [], false⟩

/-- Parameter set with a null-valued key and a list-valued key. -/
def paramsC10 : List (String × ParamValue) :=
  [("hello", ParamValue.null), ("id", ParamValue.list [.str "yes", .str "no"])]

/-- Whether a request outcome is a raised `ForbiddenError`. -/
def responseErrorIsForbidden : Except PyError Unit → Bool
  | .error .forbiddenError => true
  | _ => false

/-- Whether a request outcome is a raised `UnauthorizedError`. -/
def responseErrorIsUnauthorized : Except PyError Unit → Bool
  | .error (.unauthorizedError _) => true
  | _ => false

/-- Whether a raised-or-not exception slot holds a `MissingScopeError`. -/
def raisedIsMissingScope : Option PyError → Bool
  | some (.missingScopeError _) => true
  | _ => false

/-- Unfolding of one successful loop iteration of the generator: within
the deadline, status accepted, JSON content type, all conversions clean. -/
theorem buildGenerator_step_ok {ρ α : Type} (T : Nat)
    (fetch : Option String → Nat × HttpResponse ρ)
    (conv : ρ → Except PyError α) (fuel : Nat) (after : Option String)
    (first : Bool)
    (hguard : (first || after.isSome) = true)
    (hdur : (fetch after).1 ≤ T)
    (hok : check_request_return (fetch after).2.status
      (fetch after).2.bodyMessage = .ok ())
    (hct : (fetch after).2.contentTypeJson = true)
    (hconv : (convertItems conv (fetch after).2.items).2 = none) :
    buildGenerator T fetch conv (fuel + 1) after first =
      match buildGenerator T fetch conv fuel
          (fetch after).2.nextPageToken false with
      | none => none
      | some r =>
        some ⟨(convertItems conv (fetch after).2.items).1 ++ r.yielded,
          after :: r.requests, r.outcome⟩ := by
  simp only [buildGenerator, hguard, if_true, hok, hct, hconv]
  rw [if_neg (by omega)]

/-- When the loop guard holds and fuel remains, the first request the
generator issues is for the current cursor. -/
theorem buildGenerator_requests_head {ρ α : Type} (T : Nat)
    (fetch : Option String → Nat × HttpResponse ρ)
    (conv : ρ → Except PyError α) (fuel : Nat) (after : Option String)
    (first : Bool)
    (hguard : (first || after.isSome) = true) (hfuel : 1 ≤ fuel)
    (r : GenResult α)
    (h : buildGenerator T fetch conv fuel after first = some r) :
    ∃ rest, r.requests = after :: rest := by
  cases fuel with
  | zero => exact absurd hfuel (by omega)
  | succ f =>
    simp only [buildGenerator, hguard, if_true] at h
    split at h
    · cases h; exact ⟨[], rfl⟩
    · split at h
      · cases h; exact ⟨[], rfl⟩
      · split at h
        · split at h
          · cases h; exact ⟨[], rfl⟩
          · split at h
            · cases h
            · cases h; exact ⟨_, rfl⟩
        · cases h; exact ⟨[], rfl⟩

/-- An error reported by the item conversion comes from converting some
entry of the array. -/
theorem convertItems_error_mem {ρ α : Type} (conv : ρ → Except PyError α)
    (xs : List ρ) (e : PyError)
    (h : (convertItems conv xs).2 = some e) :
    ∃ x ∈ xs, conv x = .error e := by
  induction xs with
  | nil => simp [convertItems] at h
  | cons x xs ih =>
    simp only [convertItems] at h
    cases hc : conv x with
    | error e2 =>
      rw [hc] at h
      simp at h
      exact ⟨x, by simp, by rw [hc, h]⟩
    | ok a =>
      rw [hc] at h
      simp at h
      obtain ⟨y, hy, hye⟩ := ih h
      exact ⟨y, by simp [hy], hye⟩

/-- Errors raised by the status mapping are backend, API or not-found
errors only. -/
theorem check_request_return_error_shape (status : Nat)
    (m : Option String) (e : PyError)
    (h : check_request_return status m = .error e) :
    (∃ s, e = .youTubeBackendError s) ∨ (∃ s, e = .youTubeAPIError s) ∨
      e = .youTubeResourceNotFoundError := by
  unfold check_request_return at h
  split at h
  · cases h; exact Or.inl ⟨_, rfl⟩
  · split at h
    · cases h; exact Or.inr (Or.inl ⟨_, rfl⟩)
    · split at h
      · cases h; exact Or.inr (Or.inr rfl)
      · split at h
        · cases h; exact Or.inr (Or.inl ⟨_, rfl⟩)
        · cases h

/-- Classification of the generator outcome: it either ends cleanly or
raises an error that is a conversion error, an API error, a backend error
or a not-found error. -/
theorem buildGenerator_outcome_classified {ρ α : Type} (T : Nat)
    (fetch : Option String → Nat × HttpResponse ρ)
    (conv : ρ → Except PyError α) (P : PyError → Prop)
    (hconv : ∀ x e, conv x = .error e → P e)
    (hAPI : ∀ m, P (.youTubeAPIError m))
    (hBackend : ∀ m, P (.youTubeBackendError m))
    (hNF : P .youTubeResourceNotFoundError) :
    ∀ (fuel : Nat) (after : Option String) (first : Bool) (r : GenResult α),
      buildGenerator T fetch conv fuel after first = some r →
      r.outcome = .ok () ∨ ∃ e, r.outcome = .error e ∧ P e := by
  intro fuel
  induction fuel with
  | zero =>
    intro after first r h
    simp only [buildGenerator] at h
    split at h
    · cases h
    · cases h; exact Or.inl rfl
  | succ f ih =>
    intro after first r h
    simp only [buildGenerator] at h
    split at h
    · split at h
      · cases h
        exact Or.inr ⟨timeoutError, rfl, hAPI _⟩
      · split at h
        case _ e he =>
          cases h
          rcases check_request_return_error_shape _ _ _ he with
            ⟨s, rfl⟩ | ⟨s, rfl⟩ | rfl
          · exact Or.inr ⟨_, rfl, hBackend _⟩
          · exact Or.inr ⟨_, rfl, hAPI _⟩
          · exact Or.inr ⟨_, rfl, hNF⟩
        case _ =>
          split at h
          · split at h
            case _ e he =>
              cases h
              obtain ⟨x, _, hx⟩ := convertItems_error_mem conv _ _ he
              exact Or.inr ⟨_, rfl, hconv _ _ hx⟩
            case _ =>
              split at h
              · cases h
              · rename_i r2 heq2
                cases h
                exact ih _ _ r2 heq2
          · cases h
            exact Or.inr ⟨_, rfl, hAPI _⟩
    · cases h; exact Or.inl rfl

/-- With no cursor and the first iteration behind it, the loop guard
fails and the generator ends cleanly without fetching. -/
theorem buildGenerator_done {ρ α : Type} (T : Nat)
    (fetch : Option String → Nat × HttpResponse ρ)
    (conv : ρ → Except PyError α) (fuel : Nat) :
    buildGenerator T fetch conv fuel Option.none false =
      some ⟨[], [], .ok ()⟩ := by
  cases fuel <;> rfl

/-- C2: for a fetched page that passes the status and content-type checks
and has an empty items array, the generator terminates if and only if the
body has no `nextPageToken`: with a cursor `t` present it continues with a
request for `t` (the request trace extends by `t`), and with the cursor
absent it ends the sequence cleanly after this one request. -/
theorem paginator_continues_iff_cursor
    {ρ α : Type} (T fuel : Nat)
    (fetch : Option String → Nat × HttpResponse ρ)
    (conv : ρ → Except PyError α) (after : Option String)
    (hdur : (fetch after).1 ≤ T)
    (hok : check_request_return (fetch after).2.status
      (fetch after).2.bodyMessage = .ok ())
    (hct : (fetch after).2.contentTypeJson = true)
    (hempty : (fetch after).2.items = []) :
    (∀ t, (fetch after).2.nextPageToken = some t →
      buildGenerator T fetch conv (fuel + 1) after true =
        Option.map (fun r => ⟨r.yielded, after :: r.requests, r.outcome⟩)
          (buildGenerator T fetch conv fuel (some t) false)) ∧
    ((fetch after).2.nextPageToken = Option.none →
      buildGenerator T fetch conv (fuel + 1) after true =
        some ⟨[], [after], .ok ()⟩) ∧
    (∀ t, (fetch after).2.nextPageToken = some t → 1 ≤ fuel →
      ∀ r, buildGenerator T fetch conv (fuel + 1) after true = some r →
        ∃ rest, r.requests = after :: some t :: rest) := by
  have hconv : (convertItems conv (fetch after).2.items).2 = none := by
    rw [hempty]; rfl
  have hstep := buildGenerator_step_ok T fetch conv fuel after true rfl
    hdur hok hct hconv
  have hyield : (convertItems conv (fetch after).2.items).1 = [] := by
    rw [hempty]; rfl
  refine ⟨?_, ?_, ?_⟩
  · intro t ht
    rw [hstep, ht]
    cases hin : buildGenerator T fetch conv fuel (some t) false with
    | none => rfl
    | some r => simp [hyield]
  · intro ht
    rw [hstep, ht, buildGenerator_done]
    simp [hyield]
  · intro t ht hfuel r hr
    rw [hstep, ht] at hr
    cases hin : buildGenerator T fetch conv fuel (some t) false with
    | none => rw [hin] at hr; cases hr
    | some r2 =>
      rw [hin] at hr
      obtain ⟨rest, hrest⟩ := buildGenerator_requests_head T fetch conv
        fuel (some t) false rfl hfuel r2 hin
      cases hr
      exact ⟨rest, by simp [hrest]⟩

/-- The 400-response message never coincides with the timeout message. -/
theorem bad_request_message_ne_timeout (m : Option String) :
    bad_request_message m ≠ "Timeout occurred" := by
  intro h
  unfold bad_request_message at h
  have hd := congrArg String.data h
  rw [String.data_append] at hd
  have h3 := congrArg (fun l => List.get? l 0) hd
  simp only at h3
  rw [List.get?_append (by decide)] at h3
  exact absurd h3 (by decide)

/-- The status mapping never raises the timeout error. -/
theorem check_request_return_error_ne_timeout (status : Nat)
    (m : Option String) (e : PyError)
    (h : check_request_return status m = .error e) : e ≠ timeoutError := by
  unfold check_request_return at h
  split at h
  · cases h; decide
  · split at h
    · cases h
      intro he
      simp only [timeoutError, PyError.youTubeAPIError.injEq,
        Option.some.injEq] at he
      exact bad_request_message_ne_timeout m he
    · split at h
      · cases h; decide
      · split at h
        · cases h; decide
        · cases h

/-- When every call duration stays within the deadline and conversions
never fabricate the timeout error, the generator never raises it. -/
theorem buildGenerator_no_timeout {ρ α : Type} (T : Nat)
    (fetch : Option String → Nat × HttpResponse ρ)
    (conv : ρ → Except PyError α)
    (hdur : ∀ tok, (fetch tok).1 ≤ T)
    (hconv : ∀ x e, conv x = .error e → e ≠ timeoutError) :
    ∀ (fuel : Nat) (after : Option String) (first : Bool)
      (r : GenResult α),
      buildGenerator T fetch conv fuel after first = some r →
      r.outcome ≠ .error timeoutError := by
  intro fuel
  induction fuel with
  | zero =>
    intro after first r h
    simp only [buildGenerator] at h
    split at h
    · cases h
    · cases h; simp
  | succ f ih =>
    intro after first r h
    simp only [buildGenerator] at h
    split at h
    · split at h
      · exact absurd (by assumption) (by have := hdur after; omega)
      · split at h
        case _ e he =>
          cases h
          simpa using check_request_return_error_ne_timeout _ _ _ he
        case _ =>
          split at h
          · split at h
            case _ e he =>
              cases h
              obtain ⟨x, _, hx⟩ := convertItems_error_mem conv _ _ he
              simpa using hconv _ _ hx
            case _ =>
              split at h
              · cases h
              · rename_i r2 heq2
                cases h
                exact ih _ _ r2 heq2
          · cases h
            simp [timeoutError]
    · cases h; simp

/-- C9: the deadline default is 10, and it applies per HTTP call: if every
individual call duration stays within the deadline the generator never
raises the timeout error, however many pages it walks and whatever the
total elapsed time; and a single call that exceeds the deadline raises
`YouTubeAPIError(\"Timeout occurred\")` after exactly that one request,
with no retry. -/
theorem paginator_fresh_deadline_per_page {ρ α : Type} (T fuel : Nat)
    (fetch : Option String → Nat × HttpResponse ρ)
    (conv : ρ → Except PyError α) (after : Option String) (first : Bool)
    (hdur : ∀ tok, (fetch tok).1 ≤ T)
    (hconv : ∀ x e, conv x = .error e → e ≠ timeoutError) :
    session_timeout_default = 10 ∧
    (∀ r, buildGenerator T fetch conv fuel after first = some r →
      r.outcome ≠ .error timeoutError) ∧
    (∀ (fetch2 : Option String → Nat × HttpResponse ρ)
      (a2 : Option String), T < (fetch2 a2).1 →
      buildGenerator T fetch2 conv (fuel + 1) a2 true =
        some ⟨[], [a2], .error timeoutError⟩) := by
  refine ⟨rfl, ?_, ?_⟩
  · intro r hr
    exact buildGenerator_no_timeout T fetch conv hdur hconv fuel after
      first r hr
  · intro fetch2 a2 hexp
    simp only [buildGenerator, Bool.true_or, if_true]
    rw [if_pos hexp]

/-- C4: `get_videos` with an empty id list fails with
`ValueError(\"at least one video id has to be set\")` having issued zero
HTTP requests, and with a non-empty id list this error is never the
outcome. -/
theorem get_videos_empty_ids_fails_fast (T fuel : Nat)
    (fetch : Option String → Nat × HttpResponse RawVideo)
    (videoIds : List String) (hne : videoIds ≠ []) :
    get_videos T fetch fuel [] =
      some ⟨[], [],
        .error (.valueError "at least one video id has to be set")⟩ ∧
    (∀ r, get_videos T fetch fuel videoIds = some r →
      r.outcome ≠
        .error (.valueError "at least one video id has to be set")) := by
  constructor
  · rfl
  · intro r hr hout
    unfold get_videos at hr
    rw [if_neg (by simpa using hne)] at hr
    have hconv : ∀ x e, decodeVideoE x = .error e →
        ∀ m, e ≠ PyError.valueError m := by
      intro x e he m
      unfold decodeVideoE at he
      cases hd : decodeVideo x with
      | error s => rw [hd] at he; cases he; simp
      | ok v => rw [hd] at he; cases he
    have hclass := buildGenerator_outcome_classified T fetch decodeVideoE
      (fun e => ∀ m, e ≠ PyError.valueError m) hconv
      (by intro m m2; simp) (by intro m m2; simp) (by intro m; simp)
      fuel Option.none true r hr
    rcases hclass with hok | ⟨e, hout2, hP⟩
    · rw [hok] at hout; cases hout
    · rw [hout2] at hout
      have he : e = .valueError "at least one video id has to be set" := by
        injection hout
      exact hP _ he

/-- C5: decoding a video whose optional `snippet` part is absent succeeds,
and only the `snippet` accessor of the decoded record raises
`PartMissingError`; when the part is present and valid, decoding succeeds
and the accessor returns the decoded sub-record. -/
theorem video_decode_lazy_snippet (rv : RawVideo) (i : String)
    (hid : rv.id = some i) :
    (rv.snippet = Option.none →
      decodeVideo rv = .ok ⟨i, Option.none⟩ ∧
      YouTubeVideo.snippet ⟨i, Option.none⟩ =
        .error PyError.partMissingError) ∧
    (∀ rs s, rv.snippet = some rs → decodeVideoSnippet rs = .ok s →
      decodeVideo rv = .ok ⟨i, some s⟩ ∧
      YouTubeVideo.snippet ⟨i, some s⟩ = .ok s) := by
  constructor
  · intro hs
    constructor
    · unfold decodeVideo
      rw [hid, hs]
    · rfl
  · intro rs s hs hdec
    constructor
    · simp [decodeVideo, hid, hs, hdec, Except.map]
    · rfl

/-- C6 (amended): `set_user_authentication` checks the refresh token
first: with `auto_refresh_auth` and no refresh token it raises
`ValueError` (even when the scopes are also empty); when that check
passes, an empty scopes list raises `MissingScopeError`; on either
failure the stored credential fields are unchanged. -/
theorem set_user_authentication_checks (st : YouTubeState)
    (token : String) (scopes : List AuthScope) (rt : Option String) :
    (rt = Option.none → st.autoRefreshAuth = true →
      set_user_authentication st token scopes rt =
        (some (.valueError
          "refresh_token has to be provided when auto_refresh_auth is True"),
          st)) ∧
    ((rt ≠ Option.none ∨ st.autoRefreshAuth = false) → scopes = [] →
      set_user_authentication st token scopes rt =
        (some (.missingScopeError "scope was not provided"), st)) ∧
    (∀ e st2, set_user_authentication st token scopes rt = (some e, st2) →
      st2 = st) := by
  refine ⟨?_, ?_, ?_⟩
  · intro h1 h2
    unfold set_user_authentication
    rw [if_pos ⟨h1, h2⟩]
  · intro h1 h2
    unfold set_user_authentication
    rw [if_neg, if_pos (by simp [h2])]
    rcases h1 with h1 | h1
    · intro hc
      exact h1 hc.1
    · intro hc
      rw [h1] at hc
      cases hc.2
  · intro e st2 h
    unfold set_user_authentication at h
    split at h
    · cases h; rfl
    · split at h
      · cases h; rfl
      · cases h

/-- C3 (amended): the status mapping raises 500 to `BackendError`, 404 to
`ResourceNotFoundError`, 400 to `APIError` carrying the body message, and
every other 4xx, 403 and 401 included, to a generic `APIError`; a 2xx
response is returned as success. -/
theorem check_request_return_mapping (status : Nat) (m : Option String) :
    check_request_return 500 m =
      .error (.youTubeBackendError "Internal Server Error") ∧
    check_request_return 404 m = .error .youTubeResourceNotFoundError ∧
    check_request_return 400 m =
      .error (.youTubeAPIError (some (bad_request_message m))) ∧
    (400 ≤ status → status < 500 → status ≠ 400 → status ≠ 404 →
      check_request_return status m =
        .error (.youTubeAPIError Option.none)) ∧
    (200 ≤ status → status < 300 → check_request_return status m = .ok ()) := by
  refine ⟨rfl, rfl, rfl, ?_, ?_⟩
  · intro h1 h2 h3 h4
    unfold check_request_return
    rw [if_neg (by omega), if_neg h3, if_neg h4, if_pos ⟨h1, h2⟩]
  · intro h1 h2
    unfold check_request_return
    rw [if_neg (by omega), if_neg (by omega), if_neg (by omega),
      if_neg (by omega)]

/-- C7 (amended): the token refresh classifies 400 as
`InvalidRefreshTokenError` and 401 as `UnauthorizedError`, each carrying
the body error field; any other status returns the pair (access token
from the response, refresh token) when the field is present, and raises a
`KeyError` (not an authorization error) when it is absent. -/
theorem refresh_access_token_classification (rt : String) (status : Nat)
    (body : TokenBody) :
    (status = 400 → refresh_access_token rt status body =
      .error (.invalidRefreshTokenError (body.error.getD ""))) ∧
    (status = 401 → refresh_access_token rt status body =
      .error (.unauthorizedError (body.error.getD ""))) ∧
    (status ≠ 400 → status ≠ 401 → ∀ a, body.accessToken = some a →
      refresh_access_token rt status body = .ok (a, rt)) ∧
    (status ≠ 400 → status ≠ 401 → body.accessToken = Option.none →
      refresh_access_token rt status body =
        .error (.keyError "access_token")) := by
  refine ⟨?_, ?_, ?_, ?_⟩
  · intro h
    unfold refresh_access_token
    rw [if_pos h]
  · intro h
    unfold refresh_access_token
    rw [if_neg (by omega), if_pos h]
  · intro h1 h2 a ha
    unfold refresh_access_token
    rw [if_neg h1, if_neg h2, ha]
  · intro h1 h2 ha
    unfold refresh_access_token
    rw [if_neg h1, if_neg h2, ha]

/-- C8 (amended): a caller-supplied session is never closed; a session
the library opened is closed exactly when the POST and the JSON body
parse succeed (which covers the 400/401 error paths, since the close
precedes the status checks), and is left open when the POST or the body
parse raises. -/
theorem refresh_session_close_conditions (supplied : Bool) (rt : String)
    (post : PostOutcome) :
    (supplied = true →
      (refresh_access_token_with_session supplied rt post).2 = false) ∧
    (∀ status body, post = .response status (.ok body) →
      refresh_access_token_with_session supplied rt post =
        (refresh_access_token rt status body, !supplied)) ∧
    (post = .transportFailure →
      (refresh_access_token_with_session supplied rt post).2 = false) ∧
    (∀ status msg, post = .response status (.error msg) →
      (refresh_access_token_with_session supplied rt post).2 = false) := by
  refine ⟨?_, ?_, ?_, ?_⟩
  · intro h
    cases post with
    | transportFailure => rfl
    | response status body =>
      cases body with
      | error m => rfl
      | ok b => simp [refresh_access_token_with_session, h]
  · intro status body h
    rw [h]
    rfl
  · intro h
    rw [h]
    rfl
  · intro status msg h
    rw [h]
    rfl

/-- A nonempty string has positive length. -/
theorem string_length_pos_of_ne_empty {s : String} (h : s ≠ "") :
    0 < s.length := by
  by_contra hc
  push_neg at hc
  have hz : s.length = 0 := by omega
  cases s with
  | mk data =>
    simp [String.length] at hz
    exact h (by simp [hz])

/-- Appending a nonempty string on the right keeps a string nonempty. -/
theorem string_append_ne_empty_right (s t : String) (h : t ≠ "") :
    s ++ t ≠ "" := by
  intro he
  have hl := congrArg String.length he
  rw [String.length_append] at hl
  simp at hl
  have := string_length_pos_of_ne_empty h
  omega

/-- The accumulator step of `add_param` appends an ampersand separator
(when something was accumulated) and the fragment of the unit. -/
theorem add_param_eq (q : String → String) (ev : Bool) (res key : String)
    (v : Option ScalarValue) :
    add_param q ev res key v =
      (if res = "" then "" else res ++ "&") ++ unitFragment q ev (key, v) := by
  unfold add_param unitFragment
  by_cases h : res = ""
  · subst h
    rw [if_pos rfl, if_neg (by decide)]
    cases v <;> simp [String.empty_append]
  · rw [if_neg h]
    have hpos := string_length_pos_of_ne_empty h
    rw [if_pos (by omega)]
    cases v <;> simp [String.append_assoc]

/-- Appending a nonempty string on the left keeps a string nonempty. -/
theorem string_append_ne_empty_left (s t : String) (h : s ≠ "") :
    s ++ t ≠ "" := by
  intro he
  have hl := congrArg String.length he
  rw [String.length_append] at hl
  simp at hl
  have := string_length_pos_of_ne_empty h
  omega

/-- A unit fragment with a nonempty key is nonempty. -/
theorem unitFragment_ne_empty (q : String → String) (ev : Bool)
    (k : String) (v : Option ScalarValue) (hk : k ≠ "") :
    unitFragment q ev (k, v) ≠ "" := by
  cases v with
  | none => exact hk
  | some v =>
    unfold unitFragment
    exact string_append_ne_empty_right k _
      (string_append_ne_empty_left "=" _ (by decide))

/-- Unfolding of the ampersand join. -/
theorem joinAmp_cons (f : String) (l : List String) :
    joinAmp (f :: l) = if l = [] then f else f ++ "&" ++ joinAmp l := by
  cases l with
  | nil => rfl
  | cons g rest => rfl

/-- The join of nonempty fragments of a nonempty list is nonempty. -/
theorem joinAmp_ne_empty (l : List String) (hl : l ≠ [])
    (hne : ∀ f ∈ l, f ≠ "") : joinAmp l ≠ "" := by
  cases l with
  | nil => exact absurd rfl hl
  | cons f rest =>
    rw [joinAmp_cons]
    by_cases h : rest = []
    · rw [if_pos h]
      exact hne f (by simp)
    · rw [if_neg h]
      exact string_append_ne_empty_left _ _
        (string_append_ne_empty_left _ _ (hne f (by simp)))

/-- Folding `add_param` over units renders their fragments joined by
ampersands. -/
theorem foldl_add_param_join (q : String → String) (ev : Bool) :
    ∀ (units : List (String × Option ScalarValue)) (acc : String),
    (∀ u ∈ units, unitFragment q ev u ≠ "") →
    units.foldl (fun r u => add_param q ev r u.1 u.2) acc =
      if units = [] then acc
      else if acc = "" then joinAmp (units.map (unitFragment q ev))
      else acc ++ "&" ++ joinAmp (units.map (unitFragment q ev)) := by
  intro units
  induction units with
  | nil => intro acc hne; simp
  | cons u us ih =>
    intro acc hne
    have hu : unitFragment q ev u ≠ "" := hne u (by simp)
    have hus : ∀ w ∈ us, unitFragment q ev w ≠ "" := by
      intro w hw
      exact hne w (by simp [hw])
    simp only [List.foldl_cons]
    rw [ih (add_param q ev acc u.1 u.2) hus]
    have hadd : add_param q ev acc u.1 u.2 =
        (if acc = "" then "" else acc ++ "&") ++ unitFragment q ev u := by
      rw [add_param_eq]
    have haddne : add_param q ev acc u.1 u.2 ≠ "" := by
      rw [hadd]
      exact string_append_ne_empty_right _ _ hu
    by_cases hus0 : us = []
    · subst hus0
      simp only [List.map_cons, List.map_nil, joinAmp_cons, hadd]
      by_cases hacc : acc = ""
      · simp [hacc, String.empty_append]
      · simp [hacc]
    · simp only [List.map_cons, joinAmp_cons, hadd, if_neg hus0,
        if_neg haddne]
      rw [if_neg (show ¬(u :: us = []) by simp)]
      rw [if_neg (show ¬(us.map (unitFragment q ev) = []) by simp [hus0])]
      by_cases hacc : acc = ""
      · simp [hacc, String.empty_append, hu]
      · have hne2 : acc ++ ("&" ++ unitFragment q ev u) ≠ "" :=
          string_append_ne_empty_right _ _
            (string_append_ne_empty_left "&" _ (by decide))
        simp [hacc, String.append_assoc, hu, hne2]

/-- One loop iteration of `build_url` adds exactly the units of the
parameter. -/
theorem build_url_step_eq_units (q : String → String)
    (rn sl ev : Bool) (res : String) (kv : String × ParamValue) :
    build_url_step q rn sl ev res kv =
      (paramUnits rn sl kv).foldl
        (fun r u => add_param q ev r u.1 u.2) res := by
  obtain ⟨k, v⟩ := kv
  cases v with
  | null =>
    by_cases h : rn
    · simp [build_url_step, paramUnits, h]
    · simp [build_url_step, paramUnits, h]
  | scalar w => simp [build_url_step, paramUnits]
  | list xs =>
    by_cases h : sl
    · simp [build_url_step, paramUnits, h, List.foldl_map]
    · simp [build_url_step, paramUnits, h]

/-- The `build_url` loop adds the units of all parameters in order. -/
theorem foldl_build_url_step_eq (q : String → String) (rn sl ev : Bool) :
    ∀ (params : List (String × ParamValue)) (acc : String),
    params.foldl (build_url_step q rn sl ev) acc =
      (params.flatMap (paramUnits rn sl)).foldl
        (fun r u => add_param q ev r u.1 u.2) acc := by
  intro params
  induction params with
  | nil => intro acc; rfl
  | cons p ps ih =>
    intro acc
    simp only [List.foldl_cons, List.flatMap_cons, List.foldl_append]
    rw [build_url_step_eq_units, ih]

/-- Every unit contributed by a parameter carries that parameter's key. -/
theorem paramUnits_key_mem (rn sl : Bool) (p : String × ParamValue)
    (u : String × Option ScalarValue) (hu : u ∈ paramUnits rn sl p) :
    u.1 = p.1 := by
  obtain ⟨k, v⟩ := p
  cases v with
  | null =>
    by_cases h : rn
    · simp [paramUnits, h] at hu
    · simp [paramUnits, h] at hu
      simp [hu]
  | scalar w => simp [paramUnits] at hu; simp [hu]
  | list xs =>
    by_cases h : sl
    · simp [paramUnits, h] at hu
      obtain ⟨w, _, hw⟩ := hu
      simp [← hw]
    · simp [paramUnits, h] at hu
      simp [hu]

/-- C10: the URL built from a parameter set is the base URL followed by
the ampersand-joined fragments of the parameter units, where a null
parameter under `remove_none` contributes no unit (the key is omitted
entirely), without `remove_none` it contributes the bare key with no
value, and a list parameter under `split_lists` contributes one
`key=quote(element)` unit per element in list order. -/
theorem build_url_query_rendering (q : String → String) (url : String)
    (params : List (String × ParamValue)) (rn sl ev : Bool)
    (hkeys : ∀ p ∈ params, p.1 ≠ "") :
    build_url q url params rn sl ev =
      url ++ (if params.flatMap (paramUnits rn sl) = [] then ""
        else "?" ++ joinAmp ((params.flatMap (paramUnits rn sl)).map
          (unitFragment q ev))) ∧
    (∀ k, paramUnits true sl (k, .null) = []) ∧
    (∀ k, paramUnits false sl (k, .null) = [(k, Option.none)] ∧
      unitFragment q ev (k, Option.none) = k) ∧
    (∀ k xs, paramUnits rn true (k, .list xs) =
        xs.map (fun v => (k, Option.some v)) ∧
      ∀ v, unitFragment q ev (k, Option.some v) =
        k ++ ("=" ++ q (get_value ev v))) := by
  have hne : ∀ u ∈ params.flatMap (paramUnits rn sl),
      unitFragment q ev u ≠ "" := by
    intro u hu
    obtain ⟨p, hp, hup⟩ := List.mem_flatMap.mp hu
    have hk := paramUnits_key_mem rn sl p u hup
    obtain ⟨uk, uv⟩ := u
    exact unitFragment_ne_empty q ev uk uv (by
      simp only at hk
      rw [hk]
      exact hkeys p hp)
  refine ⟨?_, ?_, ?_, ?_⟩
  · simp only [build_url]
    rw [foldl_build_url_step_eq, foldl_add_param_join q ev _ "" hne]
    by_cases h : params.flatMap (paramUnits rn sl) = []
    · rw [if_pos h, if_pos h, if_neg (by decide)]
    · rw [if_neg h, if_pos rfl, if_neg h]
      have hjoin := joinAmp_ne_empty
        ((params.flatMap (paramUnits rn sl)).map (unitFragment q ev))
        (by simp [h])
        (by
          intro f hf
          obtain ⟨u, hu, hfu⟩ := List.mem_map.mp hf
          rw [← hfu]
          exact hne u hu)
      rw [if_pos (string_length_pos_of_ne_empty hjoin)]
  · intro k; simp [paramUnits]
  · intro k; exact ⟨by simp [paramUnits], rfl⟩
  · intro k xs; exact ⟨by simp [paramUnits], fun v => rfl⟩

/-- C1: over the two-page response sequence (page 1: items 10, 20, cursor
"X"; page 2: item 30, no cursor) the generator yields exactly the three
items in page order and array order, issues exactly the two requests
(first page, then cursor "X"), and ends the sequence cleanly with fuel to
spare, so no further HTTP request follows the third item. -/
theorem two_page_paginator_yields_three_items :
    buildGenerator 10 fetchC1 okConvNat 10 Option.none true =
      some ⟨[10, 20, 30], [Option.none, Option.some "X"], .ok ()⟩ := rfl

/-- Counterexample to C3 as stated: the code maps a 403 response to the
generic bare `YouTubeAPIError`, not to `ForbiddenError`, and a 401
response likewise, not to `UnauthorizedError`. -/
theorem check_request_return_403_401_counterexample :
    check_request_return 403 Option.none =
      .error (.youTubeAPIError Option.none) ∧
    responseErrorIsForbidden (check_request_return 403 Option.none) =
      false ∧
    check_request_return 401 Option.none =
      .error (.youTubeAPIError Option.none) ∧
    responseErrorIsUnauthorized (check_request_return 401 Option.none) =
      false := ⟨rfl, rfl, rfl, rfl⟩

/-- Counterexample to C6 as stated: with empty scopes, auto-refresh on
and no refresh token, the call raises `ValueError`, not
`MissingScopeError`. -/
theorem set_user_authentication_precedence_counterexample :
    (set_user_authentication stC6 "token" [] Option.none).1 =
      some (.valueError
        "refresh_token has to be provided when auto_refresh_auth is True") ∧
    raisedIsMissingScope
      (set_user_authentication stC6 "token" [] Option.none).1 = false :=
  ⟨rfl, rfl⟩

/-- Counterexample to C7 as stated: a 500 token response whose body has an
access token is returned as success, not as an authorization error, and a
2xx body missing the field raises `KeyError`, which is not an
authorization error. -/
theorem refresh_access_token_counterexample :
    refresh_access_token "rt" 500 ⟨some "a", Option.none⟩ =
      .ok ("a", "rt") ∧
    refresh_access_token "rt" 200 ⟨Option.none, Option.none⟩ =
      .error (.keyError "access_token") ∧
    PyError.isAuthorizationError (.keyError "access_token") = false :=
  ⟨rfl, rfl, rfl⟩

/-- Counterexample to C8 as stated: with no caller session, a transport
failure of the POST, or a body that fails to parse, exits without closing
the library-opened session. -/
theorem refresh_session_close_counterexample :
    refresh_access_token_with_session false "rt" .transportFailure =
      (.error .aiohttpClientError, false) ∧
    refresh_access_token_with_session false "rt"
        (.response 200 (.error "not json")) =
      (.error .jsonDecodeError, false) := ⟨rfl, rfl⟩

/-- Witness for C2 at the concrete sequence `fetchC2`: the first page is
empty with cursor "X" and passes all checks, and the iteration indeed
continues to the second page, yielding its item 5 from two requests. -/
theorem paginator_continues_iff_cursor_witness :
    ((fetchC2 Option.none).1 ≤ 10 ∧
      check_request_return (fetchC2 Option.none).2.status
        (fetchC2 Option.none).2.bodyMessage = .ok () ∧
      (fetchC2 Option.none).2.contentTypeJson = true ∧
      (fetchC2 Option.none).2.items = []) ∧
    buildGenerator 10 fetchC2 okConvNat (1 + 1) Option.none true =
      some ⟨[5], [Option.none, Option.some "X"], .ok ()⟩ :=
  ⟨⟨by decide, by decide, rfl, rfl⟩, by
    have h := (paginator_continues_iff_cursor 10 1 fetchC2 okConvNat
      Option.none (by decide) (by decide) rfl rfl).1 "X" rfl
    rw [h]; rfl⟩

/-- Witness for C4 at the concrete list `["a"]` and the trivial endpoint:
the empty-list call fails with the `ValueError` and records no request. -/
theorem get_videos_empty_ids_fails_fast_witness :
    (["a"] : List String) ≠ [] ∧
    get_videos 10 fetchC4 5 [] =
      some ⟨[], [],
        .error (.valueError "at least one video id has to be set")⟩ :=
  ⟨by decide, (get_videos_empty_ids_fails_fast 10 5 fetchC4 ["a"]
    (by decide)).1⟩

/-- Witness for C5 at the concrete raw videos `rvC5a` (snippet absent)
and `rvC5b` (snippet present and valid). -/
theorem video_decode_lazy_snippet_witness :
    rvC5a.id = some "vid" ∧ rvC5b.id = some "vid" ∧
    (decodeVideo rvC5a = .ok ⟨"vid", Option.none⟩ ∧
      YouTubeVideo.snippet ⟨"vid", Option.none⟩ =
        .error PyError.partMissingError) ∧
    (decodeVideo rvC5b = .ok ⟨"vid", some sC5⟩ ∧
      YouTubeVideo.snippet ⟨"vid", some sC5⟩ = .ok sC5) :=
  ⟨rfl, rfl, (video_decode_lazy_snippet rvC5a "vid" rfl).1 rfl,
    (video_decode_lazy_snippet rvC5b "vid" rfl).2 rsC5 sC5 rfl rfl⟩

/-- Witness for C9: over `fetchC9` every call takes 9 within the deadline
10 while the whole three-page iteration takes 27, and it succeeds; over
`fetchC9slow` a single call of 11 exceeds the deadline and raises the
timeout error after exactly one request. -/
theorem paginator_fresh_deadline_per_page_witness :
    (∀ tok, (fetchC9 tok).1 ≤ 10) ∧
    (9 + 9 + 9 > 10 ∧
      buildGenerator 10 fetchC9 okConvNat 5 Option.none true =
        some ⟨[1, 2, 3],
          [Option.none, Option.some "A", Option.some "B"], .ok ()⟩) ∧
    buildGenerator 10 fetchC9slow okConvNat (5 + 1) Option.none true =
      some ⟨[], [Option.none], .error timeoutError⟩ :=
  ⟨fun _ => by show (9 : Nat) ≤ 10; decide, ⟨by decide, rfl⟩,
    (paginator_fresh_deadline_per_page 10 5 fetchC9 okConvNat Option.none
      true (fun _ => by show (9 : Nat) ≤ 10; decide)
      (fun _ _ h => nomatch h)).2.2 fetchC9slow
      Option.none (by decide)⟩

/-- Witness for C10 at the concrete parameter sets: a null parameter is
omitted entirely under `remove_none` and kept as a bare key without it,
and a list parameter is split into repeated keys in order. -/
theorem build_url_query_rendering_witness :
    (∀ p ∈ paramsC10, p.1 ≠ "") ∧
    build_url (fun s => s) "asd.com" paramsC10 false true true =
      "asd.com?hello&id=yes&id=no" ∧
    build_url (fun s => s) "asd.com" [("hello", ParamValue.null)]
      true true true = "asd.com" :=
  ⟨by decide, by
    have h := (build_url_query_rendering (fun s => s) "asd.com" paramsC10
      false true true (by decide)).1
    rw [h]; rfl, by
    have h := (build_url_query_rendering (fun s => s) "asd.com"
      [("hello", ParamValue.null)] true true true (by decide)).1
    rw [h]; rfl⟩
